/-
Verification of the pair-search request compiler
(stac-fastapi-pgstac-pair-search).

Shallow embedding of `models.py` (PairSearchRequest: `validate_spatial`,
`filter_sql`) and `client.py` (PairSearchClient: `_sanitize_pair_search_request`
with its inner `_fix_filter`, `_pair_search_base` error handling,
`_finalize_items` / `_add_item_links`, `_get_search_links`, and the GET/POST
handler pair).

External collaborators (Python `float()`, `json.loads`, the `cql2` parser,
the pgstac engine, URL building, `ItemLinks`/`BaseLinks` rendering) are
modelled as explicit function parameters ("oracles"): the theorems quantify
over them, so nothing is assumed about their behaviour.
-/
import Mathlib

namespace PairSearch

/-- A Python/JSON value as it appears in the raw request mapping handed to
`validate_spatial` (pydantic `mode="before"` validator) and in the query
mapping handed to `_sanitize_pair_search_request`.  Python `int` and `float`
are both modelled as `Rat` (`rnum`); where the int/float distinction matters
(`_fix_filter`) the dedicated `CqlJson` type below is used. -/
inductive RawVal where
  | rnull : RawVal
  | rbool (b : Bool) : RawVal
  | rnum (q : Rat) : RawVal
  | rstr (s : String) : RawVal
  | rlist (xs : List RawVal) : RawVal
  | rdict (kvs : List (String × RawVal)) : RawVal

/-- Python truthiness of a `RawVal` (`if value:`):
`None`, `False`, `0`, `""`, `[]`, `{}` are falsy. -/
def truthy : RawVal → Bool
  | .rnull => false
  | .rbool b => b
  | .rnum q => q != 0
  | .rstr s => s != ""
  | .rlist xs => !xs.isEmpty
  | .rdict kvs => !kvs.isEmpty

/-- The per-side slice of the raw request mapping read and written by the
`for prefix in ["first", "second"]` loop of `validate_spatial`
(`values.get(f"{prefix}-bbox")` etc.; `values.get` yields `None`, i.e.
`rnull`, for an absent key, so an absent key and an explicit `null` value
coincide, exactly as in the source). Keys the loop never touches pass
through the validator unchanged and are omitted from the model. -/
structure SideVals where
  bbox : RawVal := .rnull
  intersects : RawVal := .rnull
  collections : RawVal := .rnull
  ids : RawVal := .rnull

/-- Split a character list at every occurrence of `c`
(helper for `pySplit`). -/
def splitOnChar (c : Char) : List Char → List (List Char)
  | [] => [[]]
  | x :: xs =>
    if x = c then [] :: splitOnChar c xs
    else
      match splitOnChar c xs with
      | [] => [[x]]
      | h :: t => (x :: h) :: t

/-- Python `s.split(sep)` for a one-character separator (e.g.
`bbox.split(",")`, `collections.split(",")`): `"".split(",") = [""]`,
`"a,b".split(",") = ["a", "b"]`. -/
def pySplit (c : Char) (s : String) : List String :=
  (splitOnChar c s.data).map List.asString

/-- `list(map(float, bbox.split(",")))`: split on commas and convert each
component with Python `float()` (modelled by the oracle `pyFloat`; `none`
models the `ValueError` raised on a non-numeric component). -/
def parseBboxFloats (pyFloat : String → Option Rat) (s : String) :
    Option (List Rat) :=
  (pySplit ',' s).mapM pyFloat

/-- `if bbox: if isinstance(bbox, str): values[...] = list(map(float,
bbox.split(",")))` (models.py 199-201).  A `float()` failure on a
component propagates as a `ValueError`. -/
def coerceBbox (pyFloat : String → Option Rat) (v : RawVal) :
    Except String RawVal :=
  if truthy v then
    match v with
    | .rstr str =>
      match parseBboxFloats pyFloat str with
      | some fs => .ok (RawVal.rlist (fs.map RawVal.rnum))
      | none => .error "could not convert string to float"
    | w => .ok w
  else .ok v

/-- `if intersects: if isinstance(intersects, str): values[...] =
json.loads(intersects)` (models.py 202-204). -/
def coerceIntersects (jsonLoads : String → Option RawVal) (v : RawVal) :
    Except String RawVal :=
  if truthy v then
    match v with
    | .rstr str =>
      match jsonLoads str with
      | some j => .ok j
      | none => .error "json.decoder.JSONDecodeError"
    | w => .ok w
  else .ok v

/-- `if isinstance(collections, str): values[...] = collections.split(",")`
(models.py 205-206).  Note: not gated on truthiness — an empty string is
split (to `[""]`); any non-string value passes through unchanged. -/
def coerceCollections : RawVal → RawVal
  | .rstr str => RawVal.rlist ((pySplit ',' str).map RawVal.rstr)
  | v => v

/-- `if ids: if isinstance(ids, str): values[...] = [ids]`
(models.py 207-209).  A truthy string is wrapped in a singleton list. -/
def coerceIds (v : RawVal) : RawVal :=
  if truthy v then
    match v with
    | .rstr str => RawVal.rlist [RawVal.rstr str]
    | w => w
  else v

/-- One iteration of the `for prefix in ["first", "second"]` loop of
`PairSearchRequest.validate_spatial` (models.py lines 190-209), acting on
that side's slice of the mapping.  `pre` is the loop variable (only used in
the error message); `pyFloat` models Python `float()` and `jsonLoads`
models `json.loads` (with `none` for a raised decode error). -/
def sideStep (pyFloat : String → Option Rat)
    (jsonLoads : String → Option RawVal) (pre : String) (s : SideVals) :
    Except String SideVals :=
  -- `if bbox and intersects: raise ValueError(...)`
  if truthy s.bbox && truthy s.intersects then
    .error (pre ++ "-intersects and " ++ pre ++
      "-bbox parameters are mutually exclusive")
  else do
    let bbox2 ← coerceBbox pyFloat s.bbox
    let intersects2 ← coerceIntersects jsonLoads s.intersects
    pure { bbox := bbox2, intersects := intersects2,
           collections := coerceCollections s.collections,
           ids := coerceIds s.ids }

/-- The raw request mapping restricted to the keys `validate_spatial` reads:
the two side slices (alias keys `first-*` / `second-*`), the alias key
`filter` (present when a request supplies the HTTP-facing alias) and the
field-name key `filter_expr`.  All other keys pass through untouched. -/
structure RawRequest where
  first : SideVals := {}
  second : SideVals := {}
  filter : RawVal := .rnull
  filter_expr : RawVal := .rnull

/-- `PairSearchRequest.validate_spatial` (models.py lines 188-216): the two
side iterations in order, then the CQL2 syntax check, which reads
`values.get("filter_expr")` — the *field name*, not the alias `filter` under
which HTTP ingestion (`model_validate(..., by_alias=True)`) stores the
value.  `cqlValidate` models `cql2.Expr(...).validate()`: `some e` when it
raises with message `e`, `none` when the expression is valid. -/
def validate_spatial (pyFloat : String → Option Rat)
    (jsonLoads : String → Option RawVal)
    (cqlValidate : RawVal → Option String) (r : RawRequest) :
    Except String RawRequest := do
  let f ← sideStep pyFloat jsonLoads "first" r.first
  let s ← sideStep pyFloat jsonLoads "second" r.second
  -- `filter_expr = values.get("filter_expr")` / `if filter_expr: ... validate()`
  if truthy r.filter_expr then
    match cqlValidate r.filter_expr with
    | some e => .error ("Invalid CQL2 filter expression: " ++ e)
    | none => pure ()
  pure { r with first := f, second := s }

/-- Pydantic parse of a `Optional[List[str]] = Field(..., default=None)`
field such as `first_collections` (models.py lines 78-83): an absent value
(`None`) takes the default `None` without error; a list of strings parses;
anything else is a type error. -/
def parseOptStrList : RawVal → Except String (Option (List String))
  | .rnull => .ok none
  | .rlist xs =>
    match xs.mapM (fun v => match v with | RawVal.rstr s => some s | _ => none) with
    | some ss => .ok (some ss)
    | none => .error "Input should be a valid string"
  | _ => .error "Input should be a valid list"

/-!
### Injectivity of the decimal representation `Nat.repr`

`filter_sql` derives parameter names `f"prop_{param_counter}"`; the
no-reuse property of claim C1 needs that distinct counters give distinct
names, i.e. that `Nat.repr` is injective.  We prove it by decoding the
digit string produced by `Nat.toDigitsCore`.
-/

/-- Numeric value of a decimal digit character. -/
def charVal (c : Char) : Nat := c.toNat - 48

/-- Decode a most-significant-first decimal digit string. -/
def decodeDigits (l : List Char) : Nat :=
  l.foldl (fun v c => 10 * v + charVal c) 0

lemma charVal_digitChar {d : Nat} (h : d < 10) :
    charVal (Nat.digitChar d) = d := by
  interval_cases d <;> rfl

lemma foldl_decode (a : Nat) (l : List Char) :
    l.foldl (fun v c => 10 * v + charVal c) a =
      a * 10 ^ l.length + decodeDigits l := by
  induction l generalizing a with
  | nil => simp [decodeDigits]
  | cons c l ih =>
    simp only [List.foldl_cons, List.length_cons, decodeDigits]
    rw [ih (10 * a + charVal c), ih (10 * 0 + charVal c)]
    ring

lemma decodeDigits_cons (c : Char) (l : List Char) :
    decodeDigits (c :: l) = charVal c * 10 ^ l.length + decodeDigits l := by
  simpa [decodeDigits] using foldl_decode (charVal c) l

lemma toDigitsCore_decode :
    ∀ (fuel n : Nat) (ds : List Char), n < 10 ^ fuel →
      decodeDigits (Nat.toDigitsCore 10 fuel n ds) =
        n * 10 ^ ds.length + decodeDigits ds := by
  intro fuel
  induction fuel with
  | zero =>
    intro n ds h
    interval_cases n
    simp [Nat.toDigitsCore]
  | succ fuel ih =>
    intro n ds h
    unfold Nat.toDigitsCore
    by_cases h10 : n / 10 = 0
    · have hn : n < 10 := by omega
      simp only [h10, if_true, decodeDigits_cons]
      rw [charVal_digitChar (Nat.mod_lt n (by omega))]
      have : n % 10 = n := Nat.mod_eq_of_lt hn
      rw [this]
    · simp only [h10, if_false]
      have hdiv : n / 10 < 10 ^ fuel := by
        have : n < 10 ^ fuel * 10 := by
          calc n < 10 ^ (fuel + 1) := h
          _ = 10 ^ fuel * 10 := by ring
        omega
      rw [ih (n / 10) (Nat.digitChar (n % 10) :: ds) hdiv, decodeDigits_cons,
        charVal_digitChar (Nat.mod_lt n (by omega))]
      simp only [List.length_cons]
      have : n = 10 * (n / 10) + n % 10 := (Nat.div_add_mod n 10).symm ▸ by omega
      calc n / 10 * 10 ^ (ds.length + 1) +
            (n % 10 * 10 ^ ds.length + decodeDigits ds)
          = (10 * (n / 10) + n % 10) * 10 ^ ds.length + decodeDigits ds := by ring
        _ = n * 10 ^ ds.length + decodeDigits ds := by rw [← this]

lemma decode_toDigits (n : Nat) : decodeDigits (Nat.toDigits 10 n) = n := by
  have hlt : n < 10 ^ (n + 1) := by
    calc n < 10 ^ n := Nat.lt_pow_self (by omega) n
      _ ≤ 10 ^ (n + 1) := Nat.pow_le_pow_right (by omega) (Nat.le_succ n)
  simpa [decodeDigits] using toDigitsCore_decode (n + 1) n [] hlt

lemma string_data_inj {a b : String} (h : a.data = b.data) : a = b := by
  cases a; cases b; simp_all

lemma natRepr_injective : Function.Injective Nat.repr := by
  intro m n h
  have hd : Nat.toDigits 10 m = Nat.toDigits 10 n := by
    have := congrArg String.data h
    simpa [Nat.repr, List.asString] using this
  have := congrArg decodeDigits hd
  rwa [decode_toDigits, decode_toDigits] at this

/-!
### The filter compiler: `PairSearchRequest.filter_sql` (models.py 119-170)

`filter_sql` turns the CQL2 expression into SQL text and then rewrites every
regex match of `"?\b(first|second)\.([\w:]+)"?` through `property_replacer`.
We embed `property_replacer` itself, together with the left-to-right fold
that `re.sub` performs over the successive matches, threading the
`param_counter` (incremented once per match) and the `final_params` dict
(insertion-ordered association list).  A "leaf" is one regex match: the
pair (side prefix, property name).
-/

/-- `root_properties = {"geometry", "id", "collection"}`. -/
def root_properties : List String := ["geometry", "id", "collection"]

/-- `":" in prop_name`. -/
def hasColon (name : String) : Bool := name.data.contains ':'

/-- Result of one `property_replacer` call: the replacement text, the
updated `param_counter`, and the binding added to `final_params` (if any). -/
structure ReplacerResult where
  replacement : String
  counter : Nat
  bound : Option (String × String)

/-- `property_replacer` (models.py 134-164).  `side` is match group 1
(`first` or `second`), `name` is match group 2 (the property name). -/
def property_replacer (param_counter : Nat) (side name : String) :
    ReplacerResult :=
  let counter := param_counter + 1
  let param_name := "prop_" ++ Nat.repr counter
  if hasColon name then
    -- namespaced names: bind the name as a parameter, never inline it
    if name = "geometry" then
      ⟨side ++ ".feature->\x27" ++ param_name ++ "\x27", counter,
        some (param_name, name)⟩
    else if root_properties.contains name then
      ⟨side ++ ".feature->>:" ++ param_name, counter, some (param_name, name)⟩
    else
      ⟨side ++ ".feature->\x27properties\x27->>:" ++ param_name, counter,
        some (param_name, name)⟩
  else
    if name = "geometry" then
      ⟨side ++ ".feature->\x27" ++ name ++ "\x27", counter, none⟩
    else if root_properties.contains name then
      ⟨side ++ ".feature->>\x27" ++ name ++ "\x27", counter, none⟩
    else
      ⟨side ++ ".feature->\x27properties\x27->>\x27" ++ name ++ "\x27",
        counter, none⟩

/-- The `re.sub` pass: left-to-right over the matches, threading the
counter and accumulating `final_params` in insertion order.  Returns the
list of replacement fragments and the parameter dict. -/
def filter_sql_fold : Nat → List (String × String) →
    List String × List (String × String)
  | _, [] => ([], [])
  | c, (side, name) :: rest =>
    let r := property_replacer c side name
    let rec' := filter_sql_fold r.counter rest
    (r.replacement :: rec'.1, r.bound.toList ++ rec'.2)

/-- `filter_sql` property rewriting, starting from `param_counter = 0`. -/
def filter_sql (leaves : List (String × String)) :
    List String × List (String × String) :=
  filter_sql_fold 0 leaves

lemma property_replacer_counter (c : Nat) (side name : String) :
    (property_replacer c side name).counter = c + 1 := by
  unfold property_replacer
  split_ifs <;> rfl

lemma property_replacer_bound_colon (c : Nat) (side name : String)
    (h : hasColon name = true) :
    (property_replacer c side name).bound =
      some ("prop_" ++ Nat.repr (c + 1), name) := by
  unfold property_replacer
  split_ifs <;> simp_all

lemma property_replacer_bound_nocolon (c : Nat) (side name : String)
    (h : hasColon name = false) :
    (property_replacer c side name).bound = none := by
  unfold property_replacer
  split_ifs <;> simp_all

lemma filter_sql_fold_length (c : Nat) (leaves : List (String × String)) :
    (filter_sql_fold c leaves).1.length = leaves.length := by
  induction leaves generalizing c with
  | nil => rfl
  | cons hd tl ih =>
    obtain ⟨side, name⟩ := hd
    simp [filter_sql_fold, ih]

lemma filter_sql_fold_get (c i : Nat) (leaves : List (String × String))
    (side name : String) (h : leaves[i]? = some (side, name)) :
    (filter_sql_fold c leaves).1[i]? =
      some (property_replacer (c + i) side name).replacement := by
  induction leaves generalizing c i with
  | nil => simp at h
  | cons hd tl ih =>
    obtain ⟨s0, n0⟩ := hd
    cases i with
    | zero =>
      simp only [List.getElem?_cons_zero, Option.some.injEq, Prod.mk.injEq] at h
      obtain ⟨rfl, rfl⟩ := h
      simp [filter_sql_fold]
    | succ j =>
      simp only [List.getElem?_cons_succ] at h
      have := ih (c + 1) j h
      simp only [filter_sql_fold, List.getElem?_cons_succ,
        property_replacer_counter]
      rw [this]
      have hcj : c + 1 + j = c + (j + 1) := by omega
      rw [hcj]

lemma filter_sql_fold_param_mem (c i : Nat) (leaves : List (String × String))
    (side name : String) (h : leaves[i]? = some (side, name))
    (hc : hasColon name = true) :
    ("prop_" ++ Nat.repr (c + i + 1), name) ∈ (filter_sql_fold c leaves).2 := by
  induction leaves generalizing c i with
  | nil => simp at h
  | cons hd tl ih =>
    obtain ⟨s0, n0⟩ := hd
    cases i with
    | zero =>
      simp only [List.getElem?_cons_zero, Option.some.injEq, Prod.mk.injEq] at h
      obtain ⟨rfl, rfl⟩ := h
      simp [filter_sql_fold, property_replacer_bound_colon c s0 n0 hc]
    | succ j =>
      simp only [List.getElem?_cons_succ] at h
      have := ih (c + 1) j h
      simp only [filter_sql_fold, property_replacer_counter]
      have hcj : c + 1 + j + 1 = c + (j + 1) + 1 := by omega
      rw [hcj] at this
      exact List.mem_append_right _ this

lemma filter_sql_fold_param_key_gt (c : Nat) (leaves : List (String × String))
    (k : String) (hk : k ∈ (filter_sql_fold c leaves).2.map Prod.fst) :
    ∃ m, c < m ∧ k = "prop_" ++ Nat.repr m := by
  induction leaves generalizing c with
  | nil => simp [filter_sql_fold] at hk
  | cons hd tl ih =>
    obtain ⟨s0, n0⟩ := hd
    simp only [filter_sql_fold, List.map_append, List.mem_append,
      property_replacer_counter] at hk
    rcases hk with hk | hk
    · rcases hb : (property_replacer c s0 n0).bound with _ | p
      · simp [hb] at hk
      · rcases hcolon : hasColon n0 with _ | _
        · rw [property_replacer_bound_nocolon c s0 n0 hcolon] at hb
          exact absurd hb (by simp)
        · have hbv := property_replacer_bound_colon c s0 n0 hcolon
          rw [hb] at hbv
          obtain rfl : p = ("prop_" ++ Nat.repr (c + 1), n0) := by
            simpa using hbv
          simp only [hb] at hk
          simp at hk
          exact ⟨c + 1, by omega, hk⟩
    · obtain ⟨m, hm, rfl⟩ := ih (c + 1) hk
      exact ⟨m, by omega, rfl⟩

lemma prop_param_name_inj {a b : Nat}
    (h : "prop_" ++ Nat.repr a = "prop_" ++ Nat.repr b) : a = b := by
  have hd := congrArg String.data h
  simp only [String.data_append] at hd
  exact natRepr_injective (string_data_inj (List.append_cancel_left hd))

lemma filter_sql_fold_keys_nodup (c : Nat) (leaves : List (String × String)) :
    ((filter_sql_fold c leaves).2.map Prod.fst).Nodup := by
  induction leaves generalizing c with
  | nil => simp [filter_sql_fold]
  | cons hd tl ih =>
    obtain ⟨s0, n0⟩ := hd
    simp only [filter_sql_fold, List.map_append, property_replacer_counter]
    refine List.Nodup.append ?_ (ih (c + 1)) ?_
    · rcases hb : (property_replacer c s0 n0).bound with _ | p <;> simp
    · intro k hk1 hk2
      rcases hb : (property_replacer c s0 n0).bound with _ | p
      · simp [hb] at hk1
      · rcases hcolon : hasColon n0 with _ | _
        · rw [property_replacer_bound_nocolon c s0 n0 hcolon] at hb
          exact absurd hb (by simp)
        · have hbv := property_replacer_bound_colon c s0 n0 hcolon
          rw [hb] at hbv
          obtain rfl : p = ("prop_" ++ Nat.repr (c + 1), n0) := by
            simpa using hbv
          simp only [hb] at hk1
          simp at hk1
          obtain ⟨m, hm, heq⟩ := filter_sql_fold_param_key_gt (c + 1) tl k hk2
          rw [hk1] at heq
          exact absurd (prop_param_name_inj heq) (by omega)

lemma filter_sql_fold_param_colon (c : Nat) (leaves : List (String × String)) :
    ∀ p ∈ (filter_sql_fold c leaves).2, hasColon p.2 = true := by
  induction leaves generalizing c with
  | nil => simp [filter_sql_fold]
  | cons hd tl ih =>
    obtain ⟨s0, n0⟩ := hd
    intro p hp
    simp only [filter_sql_fold, List.mem_append] at hp
    rcases hp with hp | hp
    · rcases hcolon : hasColon n0 with _ | _
      · rw [property_replacer_bound_nocolon c s0 n0 hcolon] at hp
        simp at hp
      · rw [property_replacer_bound_colon c s0 n0 hcolon] at hp
        simp only [Option.toList_some, List.mem_singleton] at hp
        subst hp
        exact hcolon
    · exact ih (property_replacer c s0 n0).counter p hp

/-- C1: in every `filter_sql` compilation, each property-reference leaf
without an internal colon is rewritten inline — a root property (`id`,
`collection`) as a direct (string-cast) field access on that side's item
payload, `geometry` as a direct non-string-cast access to the geometry
field, and any other name as a string-cast access into that side's
`properties` bag; each leaf whose name contains a colon is never inlined
but bound as the synthetic parameter `prop_N` with `N` the value of the
monotonically increasing counter at that leaf, only colon-containing names
are ever bound, and no parameter name is ever reused within one
compilation. -/
theorem c1_filter_sql_leaf_rewriting (leaves : List (String × String)) :
    (∀ i side name, leaves[i]? = some (side, name) →
      (hasColon name = false →
        (name = "geometry" →
          (filter_sql leaves).1[i]? =
            some (side ++ ".feature->\x27" ++ name ++ "\x27")) ∧
        ((name = "id" ∨ name = "collection") →
          (filter_sql leaves).1[i]? =
            some (side ++ ".feature->>\x27" ++ name ++ "\x27")) ∧
        (name ≠ "geometry" → name ≠ "id" → name ≠ "collection" →
          (filter_sql leaves).1[i]? =
            some (side ++ ".feature->\x27properties\x27->>\x27" ++ name ++
              "\x27"))) ∧
      (hasColon name = true →
        (filter_sql leaves).1[i]? =
          some (side ++ ".feature->\x27properties\x27->>:" ++
            ("prop_" ++ Nat.repr (i + 1))) ∧
        ("prop_" ++ Nat.repr (i + 1), name) ∈ (filter_sql leaves).2)) ∧
    (∀ p ∈ (filter_sql leaves).2, hasColon p.2 = true) ∧
    ((filter_sql leaves).2.map Prod.fst).Nodup := by
  refine ⟨fun i side name h => ⟨fun hnc => ?_, fun hc => ⟨?_, ?_⟩⟩, ?_, ?_⟩
  · have hg := filter_sql_fold_get 0 i leaves side name h
    simp only [Nat.zero_add] at hg
    refine ⟨fun hgeo => ?_, fun hroot => ?_, fun h1 h2 h3 => ?_⟩
    · rw [filter_sql, hg]
      subst hgeo
      simp [property_replacer, hnc]
    · rw [filter_sql, hg]
      rcases hroot with rfl | rfl <;>
        simp [property_replacer, hnc, root_properties]
    · rw [filter_sql, hg]
      simp [property_replacer, hnc, root_properties, h1, h2, h3]
  · have hg := filter_sql_fold_get 0 i leaves side name h
    simp only [Nat.zero_add] at hg
    rw [filter_sql, hg]
    have hng : name ≠ "geometry" := by
      rintro rfl; simp [hasColon] at hc
    have hni : name ≠ "id" := by
      rintro rfl; simp [hasColon] at hc
    have hnc : name ≠ "collection" := by
      rintro rfl; simp [hasColon] at hc
    simp [property_replacer, hc, root_properties, hng, hni, hnc]
  · have := filter_sql_fold_param_mem 0 i leaves side name h hc
    simpa [filter_sql] using this
  · exact filter_sql_fold_param_colon 0 leaves
  · exact filter_sql_fold_keys_nodup 0 leaves

/-- Witness for C1 at a concrete compilation: the two leaves `first.id`
(root property, inlined) and `second.grid:code` (namespaced, bound as
`prop_2` — the counter has already ticked once for the first leaf). -/
theorem c1_filter_sql_leaf_rewriting_witness :
    (filter_sql [("first", "id"), ("second", "grid:code")]).1[0]? =
      some ("first" ++ ".feature->>\x27" ++ "id" ++ "\x27") ∧
    (filter_sql [("first", "id"), ("second", "grid:code")]).1[1]? =
      some ("second" ++ ".feature->\x27properties\x27->>:" ++
        ("prop_" ++ Nat.repr 2)) ∧
    ("prop_" ++ Nat.repr 2, "grid:code") ∈
      (filter_sql [("first", "id"), ("second", "grid:code")]).2 := by
  have h := c1_filter_sql_leaf_rewriting [("first", "id"), ("second", "grid:code")]
  refine ⟨((h.1 0 "first" "id" rfl).1 (by rfl)).2.1 (Or.inl rfl), ?_, ?_⟩
  · exact ((h.1 1 "second" "grid:code" rfl).2 (by rfl)).1
  · exact ((h.1 1 "second" "grid:code" rfl).2 (by rfl)).2

/-!
### Claims C2, C3, C4, C6 — request normalization / validation
-/

/-- Concrete oracle: Python `float()` that is never consulted. -/
def oracleFloat : String → Option Rat := fun _ => none

/-- Concrete oracle: `json.loads` that is never consulted. -/
def oracleJson : String → Option RawVal := fun _ => none

/-- Concrete oracle: `json.loads` returning a Point geometry object. -/
def oracleJsonPoint : String → Option RawVal :=
  fun _ => some (.rdict [("type", .rstr "Point")])

/-- Concrete oracle: `cql2.Expr(...).validate()` accepting everything. -/
def cqlAccept : RawVal → Option String := fun _ => none

/-- Concrete oracle: `cql2.Expr(...).validate()` rejecting everything. -/
def cqlReject : RawVal → Option String := fun _ => some "parse error"

lemma sideStep_mutex (pyFloat : String → Option Rat)
    (jsonLoads : String → Option RawVal) (pre : String) (s : SideVals)
    (hb : truthy s.bbox = true) (hi : truthy s.intersects = true) :
    sideStep pyFloat jsonLoads pre s =
      .error (pre ++ "-intersects and " ++ pre ++
        "-bbox parameters are mutually exclusive") := by
  unfold sideStep
  simp [hb, hi]

/-- C2 counterexample: a GET request `?first-bbox=&first-intersects=<geom>`
carries BOTH parameters, yet `validate_spatial` raises nothing — the
mutual-exclusion check tests Python truthiness, and the empty-string bbox
value is falsy.  (The eventual bbox type error, if any, comes from field
parsing and is not the mutual-exclusion error; a JSON body with
`"first-bbox": null` passes whole-request validation outright.) -/
theorem c2_mutual_exclusion_counterexample :
    validate_spatial oracleFloat oracleJsonPoint cqlAccept
      { first := { bbox := .rstr "", intersects := .rstr "point-geojson" } } =
    .ok { first := { bbox := .rstr "",
                     intersects := .rdict [("type", .rstr "Point")] } } := rfl

/-- C2 (amended): if a side's bbox and intersects are both present with
truthy values, `validate_spatial` always fails; when that side is `first`
(processed first) the error is exactly the mutual-exclusion message.  (For
the `second` side an earlier coercion error on the `first` side may
preempt the mutual-exclusion message.) -/
theorem c2_amended_mutual_exclusion (pyFloat : String → Option Rat)
    (jsonLoads : String → Option RawVal)
    (cqlValidate : RawVal → Option String) (r : RawRequest) (pre : String)
    (hpre : pre = "first" ∨ pre = "second")
    (hb : truthy (if pre = "first" then r.first else r.second).bbox = true)
    (hi : truthy (if pre = "first" then r.first else r.second).intersects =
      true) :
    (∃ e, validate_spatial pyFloat jsonLoads cqlValidate r = .error e) ∧
    (pre = "first" →
      validate_spatial pyFloat jsonLoads cqlValidate r =
        .error
          "first-intersects and first-bbox parameters are mutually exclusive") := by
  constructor
  · rcases hpre with rfl | rfl
    · simp only [reduceIte] at hb hi
      have hv : validate_spatial pyFloat jsonLoads cqlValidate r =
          .error ("first" ++ "-intersects and " ++ "first" ++
            "-bbox parameters are mutually exclusive") := by
        unfold validate_spatial
        rw [sideStep_mutex pyFloat jsonLoads "first" r.first hb hi]
        rfl
      exact ⟨_, hv⟩
    · simp at hb hi
      cases hfs : sideStep pyFloat jsonLoads "first" r.first with
      | error e =>
        have hv : validate_spatial pyFloat jsonLoads cqlValidate r =
            .error e := by
          unfold validate_spatial
          rw [hfs]
          rfl
        exact ⟨e, hv⟩
      | ok f =>
        have hv : validate_spatial pyFloat jsonLoads cqlValidate r =
            .error ("second" ++ "-intersects and " ++ "second" ++
              "-bbox parameters are mutually exclusive") := by
          unfold validate_spatial
          rw [hfs, sideStep_mutex pyFloat jsonLoads "second" r.second hb hi]
          rfl
        exact ⟨_, hv⟩
  · rintro rfl
    simp only [reduceIte] at hb hi
    unfold validate_spatial
    rw [sideStep_mutex pyFloat jsonLoads "first" r.first hb hi]
    rfl

lemma sideStep_eq (pyFloat : String → Option Rat)
    (jsonLoads : String → Option RawVal) (pre : String) (s : SideVals) :
    sideStep pyFloat jsonLoads pre s =
      if truthy s.bbox && truthy s.intersects then
        .error (pre ++ "-intersects and " ++ pre ++
          "-bbox parameters are mutually exclusive")
      else
        match coerceBbox pyFloat s.bbox with
        | .error e => .error e
        | .ok b2 =>
          match coerceIntersects jsonLoads s.intersects with
          | .error e => .error e
          | .ok i2 =>
            .ok { bbox := b2, intersects := i2,
                  collections := coerceCollections s.collections,
                  ids := coerceIds s.ids } := by
  unfold sideStep
  by_cases hm : (truthy s.bbox && truthy s.intersects) = true
  · simp [hm]
  · simp only [hm, if_false, Bool.false_eq_true]
    cases coerceBbox pyFloat s.bbox <;>
      cases coerceIntersects jsonLoads s.intersects <;> rfl

lemma sideStep_ok_fields (pyFloat : String → Option Rat)
    (jsonLoads : String → Option RawVal) (pre : String) (s out : SideVals)
    (h : sideStep pyFloat jsonLoads pre s = .ok out) :
    out.collections = coerceCollections s.collections ∧
    out.ids = coerceIds s.ids := by
  rw [sideStep_eq] at h
  by_cases hm : (truthy s.bbox && truthy s.intersects) = true
  · simp [hm] at h
  · simp only [hm, if_false, Bool.false_eq_true] at h
    cases hB : coerceBbox pyFloat s.bbox with
    | error e => rw [hB] at h; cases h
    | ok b2 =>
      rw [hB] at h
      cases hI : coerceIntersects jsonLoads s.intersects with
      | error e => rw [hI] at h; cases h
      | ok i2 =>
        rw [hI] at h
        have hrec := Except.ok.inj h
        rw [← hrec]
        exact ⟨rfl, rfl⟩

lemma validate_spatial_eq (pyFloat : String → Option Rat)
    (jsonLoads : String → Option RawVal)
    (cqlValidate : RawVal → Option String) (r : RawRequest) :
    validate_spatial pyFloat jsonLoads cqlValidate r =
      match sideStep pyFloat jsonLoads "first" r.first with
      | .error e => .error e
      | .ok f =>
        match sideStep pyFloat jsonLoads "second" r.second with
        | .error e => .error e
        | .ok s =>
          if truthy r.filter_expr then
            match cqlValidate r.filter_expr with
            | some e => .error ("Invalid CQL2 filter expression: " ++ e)
            | none => .ok { r with first := f, second := s }
          else .ok { r with first := f, second := s } := by
  unfold validate_spatial
  cases sideStep pyFloat jsonLoads "first" r.first with
  | error e => rfl
  | ok f =>
    cases sideStep pyFloat jsonLoads "second" r.second with
    | error e => rfl
    | ok s =>
      by_cases ht : truthy r.filter_expr = true
      · simp only [ht, if_true]
        cases cqlValidate r.filter_expr <;> rfl
      · simp only [ht, if_false, Bool.false_eq_true]
        rfl

/-- Witness for C2 (amended) at a concrete request with both `first-bbox`
and `first-intersects` truthy. -/
theorem c2_amended_mutual_exclusion_witness :
    validate_spatial oracleFloat oracleJson cqlAccept
      { first := { bbox := .rstr "0,0,1,1",
                   intersects := .rdict [("type", .rstr "Point")] } } =
      .error
        "first-intersects and first-bbox parameters are mutually exclusive" :=
  (c2_amended_mutual_exclusion oracleFloat oracleJson cqlAccept
    { first := { bbox := .rstr "0,0,1,1",
                 intersects := .rdict [("type", .rstr "Point")] } }
    "first" (Or.inl rfl) (by rfl) (by rfl)).2 rfl

/-- C3 counterexample: for a raw request giving `first-ids` as the single
comma-separated string `"a,b"`, the normalizer does NOT split on commas:
it wraps the whole string into the singleton list `["a,b"]`, which differs
from the split `["a", "b"]` the claim requires.  (Only `collections`
strings are split.) -/
theorem c3_ids_not_split_counterexample :
    validate_spatial oracleFloat oracleJson cqlAccept
      { first := { ids := .rstr "a,b" } } =
      .ok { first := { ids := .rlist [.rstr "a,b"] } } ∧
    RawVal.rlist [.rstr "a,b"] ≠ RawVal.rlist [.rstr "a", .rstr "b"] :=
  ⟨rfl, by simp⟩

/-- C3 (amended): in every successful side normalization, a
comma-separated string for `collections` is split on commas into the
ordered list of its components and a list value passes through unchanged;
a (non-empty) string for `ids` is wrapped into a singleton list — NOT
split on commas — and a list value passes through unchanged. -/
theorem c3_amended_csv_normalization (pyFloat : String → Option Rat)
    (jsonLoads : String → Option RawVal) (pre : String) (s out : SideVals)
    (h : sideStep pyFloat jsonLoads pre s = .ok out) :
    (∀ cs, s.collections = .rstr cs →
      out.collections = .rlist ((pySplit ',' cs).map RawVal.rstr)) ∧
    (∀ l, s.collections = .rlist l → out.collections = .rlist l) ∧
    (∀ x, s.ids = .rstr x → x ≠ "" → out.ids = .rlist [.rstr x]) ∧
    (∀ l, s.ids = .rlist l → out.ids = .rlist l) := by
  obtain ⟨hcol, hids⟩ := sideStep_ok_fields pyFloat jsonLoads pre s out h
  refine ⟨fun cs hcs => ?_, fun l hl => ?_, fun x hx hne => ?_,
    fun l hl => ?_⟩
  · rw [hcol, hcs]
    rfl
  · rw [hcol, hl]
    rfl
  · rw [hids, hx]
    simp [coerceIds, truthy, hne]
  · rw [hids, hl]
    unfold coerceIds
    split <;> rfl

/-- Witness for C3 (amended) at a concrete side carrying
`collections = "c1,c2"` and `ids = "a,b"`. -/
theorem c3_amended_csv_normalization_witness :
    ({ collections := RawVal.rlist [.rstr "c1", .rstr "c2"],
       ids := RawVal.rlist [.rstr "a,b"] } : SideVals).collections =
      .rlist ((pySplit ',' "c1,c2").map RawVal.rstr) ∧
    ({ collections := RawVal.rlist [.rstr "c1", .rstr "c2"],
       ids := RawVal.rlist [.rstr "a,b"] } : SideVals).ids =
      .rlist [.rstr "a,b"] := by
  have h := c3_amended_csv_normalization oracleFloat oracleJson "first"
    { collections := .rstr "c1,c2", ids := .rstr "a,b" }
    { collections := .rlist [.rstr "c1", .rstr "c2"],
      ids := .rlist [.rstr "a,b"] } rfl
  exact ⟨h.1 "c1,c2" rfl, h.2.2.1 "a,b" rfl (by decide)⟩

/-- C4 counterexample: a raw request with no `collections` on either side
(and nothing else) passes `validate_spatial` untouched, and the
`Optional[List[str]] = Field(default=None)` declaration of the per-side
collections fields parses the absent value to its default `None` without
error — the absence of `collections` is not a validation error. -/
theorem c4_collections_absent_passes :
    validate_spatial oracleFloat oracleJson cqlAccept {} = .ok {} ∧
    parseOptStrList .rnull = .ok none :=
  ⟨rfl, rfl⟩

lemma sideStep_set_collections (pyFloat : String → Option Rat)
    (jsonLoads : String → Option RawVal) (pre : String) (s : SideVals)
    (x : RawVal) :
    sideStep pyFloat jsonLoads pre { s with collections := x } =
      (sideStep pyFloat jsonLoads pre s).map
        (fun out => { out with collections := coerceCollections x }) := by
  rw [sideStep_eq, sideStep_eq]
  by_cases hm : (truthy s.bbox && truthy s.intersects) = true
  · simp only [hm, if_true]
    rfl
  · simp only [hm, if_false, Bool.false_eq_true]
    cases coerceBbox pyFloat s.bbox <;>
      cases coerceIntersects jsonLoads s.intersects <;> rfl

/-- C4 (amended): `collections` is optional per side — the field is
declared `Optional[List[str]]` with default `None` (parsing the absent
value to `None` without error), and whether `validate_spatial` succeeds
never depends on the collections values: removing them from any raw
request leaves success/failure unchanged. -/
theorem c4_amended_collections_optional (pyFloat : String → Option Rat)
    (jsonLoads : String → Option RawVal)
    (cqlValidate : RawVal → Option String) (r : RawRequest) :
    parseOptStrList .rnull = .ok none ∧
    (validate_spatial pyFloat jsonLoads cqlValidate
        { r with first := { r.first with collections := .rnull },
                 second := { r.second with collections := .rnull } }).isOk =
      (validate_spatial pyFloat jsonLoads cqlValidate r).isOk := by
  refine ⟨rfl, ?_⟩
  rw [validate_spatial_eq, validate_spatial_eq]
  dsimp only
  rw [sideStep_set_collections pyFloat jsonLoads "first" r.first .rnull,
    sideStep_set_collections pyFloat jsonLoads "second" r.second .rnull]
  cases sideStep pyFloat jsonLoads "first" r.first with
  | error e => rfl
  | ok f =>
    cases sideStep pyFloat jsonLoads "second" r.second with
    | error e => rfl
    | ok s =>
      by_cases ht : truthy r.filter_expr = true
      · simp only [Except.map_ok, ht, if_true]
        cases cqlValidate r.filter_expr <;> rfl
      · simp only [Except.map_ok, ht, if_false, Bool.false_eq_true]
        rfl

/-- C6 (code evaluated at the failing input): an invalid filter supplied
under its HTTP alias key `filter` — as every aliased GET query string or
POST body does — is NOT caught by `validate_spatial`, because the check
reads the unpopulated field-name key `filter_expr`; the same invalid
expression supplied under the key `filter_expr` IS rejected with the
invalid-filter-expression message carrying the parser error.  Here the
CQL2 oracle rejects every expression, so a correct lookup would have to
fail. -/
theorem c6_filter_validation_bypassed_on_alias :
    validate_spatial oracleFloat oracleJson cqlReject
      { filter := .rstr "((" } = .ok { filter := .rstr "((" } ∧
    validate_spatial oracleFloat oracleJson cqlReject
      { filter_expr := .rstr "((" } =
      .error ("Invalid CQL2 filter expression: " ++ "parse error") :=
  ⟨rfl, rfl⟩

/-!
### Claim C5 — `_fix_filter` (client.py 164-180)

A CQL2-JSON term as `_fix_filter` sees it: Python `int` and `float` are
distinct runtime types (`cint` / `cfloat`; the float is modelled exactly as
a rational), an operator node is a dict carrying an `"op"` key and an
`"args"` list, `cprop` stands for the `{"property": ...}` dicts, and
`cstr`/`cbool` for the remaining scalars.  `_fix_filter` touches only
floats and op-dicts and leaves everything else alone.  (An `"op": "*"`
dict with fewer than two args would raise `IndexError` in Python; such
trees never leave the CQL2 parser, and the embedding sends them through
the recursive branch.)
-/

inductive CqlJson where
  | cint (n : Int)
  | cfloat (q : Rat)
  | cstr (s : String)
  | cbool (b : Bool)
  | cprop (name : String)
  | cnode (op : String) (args : List CqlJson)

/-- `query["args"][0] == -1`: Python numeric cross-type equality with the
int `-1` (a bool is never `== -1`). -/
def isNegOne : CqlJson → Bool
  | .cint n => n == -1
  | .cfloat q => q == -1
  | _ => false

/-- `isinstance(x, (float, int))`; note that Python `bool` is a subclass
of `int`. -/
def isPyNum : CqlJson → Bool
  | .cint _ => true
  | .cfloat _ => true
  | .cbool _ => true
  | _ => false

/-- Python unary minus `-query["args"][1]` on a numeric value
(`-True = -1`, `-False = 0`). -/
def pyNeg : CqlJson → CqlJson
  | .cint n => .cint (-n)
  | .cfloat q => .cfloat (-q)
  | .cbool b => .cint (if b then -1 else 0)
  | v => v

/-- The effect of `_fix_filter` on a bare number: an integral float
(`int(query) == query`) collapses to the int. -/
def floatToInt : CqlJson → CqlJson
  | .cfloat q => if q.den = 1 then .cint q.num else .cfloat q
  | v => v

mutual

/-- `_fix_filter` (client.py 164-180).  The `multiply(-1, number)` rewrite
returns `_fix_filter(-args[1])`, which on the numeric argument is exactly
`floatToInt (pyNeg args[1])`; otherwise an op-dict has its args fixed
recursively (`fixArgs`), and a bare float is normalized.  The pattern test
happens BEFORE the recursive descent into the args. -/
def fix_filter : CqlJson → CqlJson
  | .cfloat q => if q.den = 1 then .cint q.num else .cfloat q
  | .cnode op (a0 :: a1 :: rest) =>
    if op = "*" && isNegOne a0 && isPyNum a1 then
      floatToInt (pyNeg a1)
    else .cnode op (fixArgs (a0 :: a1 :: rest))
  | .cnode op args => .cnode op (fixArgs args)
  | v => v

/-- `query["args"] = [_fix_filter(item) for item in query["args"]]`. -/
def fixArgs : List CqlJson → List CqlJson
  | [] => []
  | x :: xs => fix_filter x :: fixArgs xs

end

/-- A `multiply(-1, numeric-literal)` form at the root: exactly the
pattern `_fix_filter` is meant to eliminate. -/
def isNegMulRedex : CqlJson → Bool
  | .cnode op (a0 :: a1 :: _) => op == "*" && isNegOne a0 && isPyNum a1
  | _ => false

mutual

/-- Some subterm, at any depth, is a `multiply(-1, numeric-literal)`
form. -/
def containsNegMul : CqlJson → Bool
  | .cnode op args => isNegMulRedex (.cnode op args) || anyNegMul args
  | _ => false

def anyNegMul : List CqlJson → Bool
  | [] => false
  | x :: xs => containsNegMul x || anyNegMul xs

end

/-- An operator dict (`isinstance(x, dict) and "op" in x`). -/
def isNode : CqlJson → Bool
  | .cnode _ _ => true
  | _ => false

mutual

/-- Every multiply node in the tree has scalar (non-operator-dict) terms in
its first two argument positions — the shape the upstream cql2 parser
emits, where `multiply(-1, x)` always wraps a bare literal. -/
def mulArgsScalar : CqlJson → Bool
  | .cnode op args =>
    (if op = "*" then
      match args with
      | a0 :: a1 :: _ => !isNode a0 && !isNode a1
      | _ => true
    else true) && allMulArgsScalar args
  | _ => true

def allMulArgsScalar : List CqlJson → Bool
  | [] => true
  | x :: xs => mulArgsScalar x && allMulArgsScalar xs

end

lemma fix_filter_scalar (a : CqlJson) (h : isNode a = false) :
    fix_filter a = floatToInt a := by
  cases a <;> simp_all [fix_filter, floatToInt, isNode]

lemma isNegOne_floatToInt (a : CqlJson) :
    isNegOne (floatToInt a) = isNegOne a := by
  cases a with
  | cfloat q =>
    unfold floatToInt
    by_cases hq : q.den = 1
    · simp only [hq, if_true, isNegOne]
      have : q.num = -1 ↔ q = -1 := by
        constructor
        · intro hn
          have := Rat.num_div_den q
          rw [hn, hq] at this
          simpa using this.symm
        · intro hn
          rw [hn]
          rfl
      simp [this]
    · simp [hq]
  | _ => rfl

lemma isPyNum_floatToInt (a : CqlJson) :
    isPyNum (floatToInt a) = isPyNum a := by
  cases a with
  | cfloat q =>
    simp only [floatToInt]
    by_cases hq : q.den = 1 <;> simp [hq, isPyNum]
  | _ => rfl

lemma containsNegMul_fix_num (a : CqlJson) (h : isPyNum a = true) :
    containsNegMul (floatToInt (pyNeg a)) = false := by
  cases a with
  | cint n => rfl
  | cfloat q =>
    simp only [pyNeg, floatToInt]
    by_cases hq : q.den = 1 <;> simp [hq, containsNegMul]
  | cbool b => rfl
  | cstr s => simp [isPyNum] at h
  | cprop p => simp [isPyNum] at h
  | cnode op args => simp [isPyNum] at h

lemma isNode_floatToInt (a : CqlJson) (h : isNode a = false) :
    isNode (floatToInt a) = false := by
  cases a with
  | cfloat q =>
    simp only [floatToInt]
    by_cases hq : q.den = 1 <;> simp [hq, isNode]
  | cnode op args => simp [isNode] at h
  | _ => exact h

mutual

lemma fix_filter_no_redex : ∀ (t : CqlJson), mulArgsScalar t = true →
    containsNegMul (fix_filter t) = false
  | .cint n, _ => rfl
  | .cfloat q, _ => by
    simp only [fix_filter]
    by_cases hq : q.den = 1 <;> simp [hq, containsNegMul]
  | .cstr s, _ => rfl
  | .cbool b, _ => rfl
  | .cprop p, _ => rfl
  | .cnode op [], h => by
    simp only [fix_filter, fixArgs, containsNegMul, anyNegMul,
      isNegMulRedex, Bool.or_false]
  | .cnode op [a0], h => by
    simp only [mulArgsScalar, allMulArgsScalar, Bool.and_eq_true,
      Bool.and_true] at h
    simp only [fix_filter, fixArgs, containsNegMul, anyNegMul,
      isNegMulRedex, Bool.or_false, Bool.false_or]
    exact fix_filter_no_redex a0 h.2
  | .cnode op (a0 :: a1 :: rest), h => by
    simp only [mulArgsScalar, allMulArgsScalar, Bool.and_eq_true] at h
    obtain ⟨hhead, h0, h1, hrest⟩ := h
    by_cases hcond : (op = "*" && isNegOne a0 && isPyNum a1) = true
    · have hfix : fix_filter (.cnode op (a0 :: a1 :: rest)) =
          floatToInt (pyNeg a1) := by
        simp [fix_filter, hcond]
      rw [hfix]
      simp only [Bool.and_eq_true] at hcond
      exact containsNegMul_fix_num a1 hcond.2
    · have hfix : fix_filter (.cnode op (a0 :: a1 :: rest)) =
          .cnode op (fix_filter a0 :: fix_filter a1 :: fixArgs rest) := by
        simp [fix_filter, hcond, fixArgs]
      rw [hfix]
      simp only [containsNegMul, anyNegMul, isNegMulRedex]
      rw [fix_filter_no_redex a0 h0, fix_filter_no_redex a1 h1,
        fixArgs_no_redex rest hrest]
      simp only [Bool.or_false]
      by_cases hop : op = "*"
      · subst hop
        simp only [if_true, reduceIte, Bool.and_eq_true,
          Bool.not_eq_true'] at hhead
        rw [fix_filter_scalar a0 hhead.1, fix_filter_scalar a1 hhead.2,
          isNegOne_floatToInt, isPyNum_floatToInt]
        rcases hA : isNegOne a0 <;> rcases hB : isPyNum a1 <;> simp_all
      · simp [hop]

lemma fixArgs_no_redex : ∀ (l : List CqlJson), allMulArgsScalar l = true →
    anyNegMul (fixArgs l) = false
  | [], _ => rfl
  | x :: xs, h => by
    simp only [allMulArgsScalar, Bool.and_eq_true] at h
    simp only [fixArgs, anyNegMul]
    rw [fix_filter_no_redex x h.1, fixArgs_no_redex xs h.2]
    rfl

end

/-- C5 counterexample: `_fix_filter` tests the `multiply(-1, literal)`
pattern BEFORE descending into the arguments, so on
`multiply(-1, multiply(-1, 5))` the inner redex is normalized to `-5` but
the outer node is never re-examined: the emitted tree is
`multiply(-1, -5)` — itself a `multiply(-1, numeric-literal)` subterm,
contradicting "no such multiply form remains in the emitted tree". -/
theorem c5_negmul_form_remains_counterexample :
    fix_filter (.cnode "*" [.cint (-1), .cnode "*" [.cint (-1), .cint 5]]) =
      .cnode "*" [.cint (-1), .cint (-5)] ∧
    containsNegMul
      (fix_filter
        (.cnode "*" [.cint (-1), .cnode "*" [.cint (-1), .cint 5]])) =
      true :=
  ⟨rfl, rfl⟩

/-- C5 (amended): provided every multiply node carries scalar
(non-operator) terms in its first two argument positions — the shape the
upstream CQL2-to-SQL translator emits for negative numeric literals — the
sanitizer replaces every `multiply(-1, numeric-literal)` subterm by the
single signed numeric literal equal to the negation of that literal
(`floatToInt (pyNeg ·)`, which also collapses an integral float), and no
such multiply form remains in the emitted tree.  (When a multiply argument
is itself an operator expression, a `multiply(-1, literal)` form can
survive, as the counterexample shows.) -/
theorem c5_amended_negmul_normalization (t : CqlJson)
    (h : mulArgsScalar t = true) :
    containsNegMul (fix_filter t) = false ∧
    (∀ a0 a1 rest, t = CqlJson.cnode "*" (a0 :: a1 :: rest) →
      isNegOne a0 = true → isPyNum a1 = true →
      fix_filter t = floatToInt (pyNeg a1)) := by
  refine ⟨fix_filter_no_redex t h, ?_⟩
  rintro a0 a1 rest rfl hneg hnum
  simp [fix_filter, hneg, hnum]

/-- Witness for C5 (amended) at the parser-shaped tree
`multiply(-1, 5)`. -/
theorem c5_amended_negmul_normalization_witness :
    containsNegMul (fix_filter (.cnode "*" [.cint (-1), .cint 5])) = false ∧
    fix_filter (.cnode "*" [.cint (-1), .cint 5]) = .cint (-5) := by
  have h := c5_amended_negmul_normalization
    (.cnode "*" [.cint (-1), .cint 5]) rfl
  exact ⟨h.1, (h.2 (.cint (-1)) (.cint 5) [] rfl rfl rfl).trans rfl⟩

/-!
### Claim C7 — engine invalid-datetime handling (client.py 124-134)
-/

/-- The fields declared on `PairSearchRequest` (models.py 44-117).
Pydantic attribute access on any other name raises `AttributeError`. -/
def pairSearchRequestFields : List String :=
  ["limit", "offset", "first_bbox", "second_bbox", "first_datetime",
   "second_datetime", "first_intersects", "second_intersects", "first_ids",
   "second_ids", "first_collections", "second_collections", "response_type",
   "filter_expr", "filter_crs", "filter_lang"]

/-- `getattr(search_request, name)` on a `PairSearchRequest` instance
(field values as a name-indexed mapping): `none` models the
`AttributeError` raised for a name that is not a declared field. -/
def getattrPSR (fields : String → RawVal) (name : String) : Option RawVal :=
  if pairSearchRequestFields.contains name then some (fields name) else none

/-- The `except InvalidDatetimeFormatError` handler of `_pair_search_base`
(client.py 131-134): it raises
`InvalidQueryParameter(f"Datetime parameter {search_request.datetime} is
invalid.")`.  Formatting the message reads the attribute `datetime`; if
that lookup raises, the `AttributeError` escapes instead of the intended
typed error (`pyStr` models Python str-interpolation of the value). -/
def invalidDatetimeHandler (pyStr : RawVal → String)
    (fields : String → RawVal) : Except String String :=
  match getattrPSR fields "datetime" with
  | some v => .ok ("Datetime parameter " ++ pyStr v ++ " is invalid.")
  | none =>
    .error
      "AttributeError: \x27PairSearchRequest\x27 object has no attribute \x27datetime\x27"

/-- C7 (code evaluated at the failing input): when the engine raises its
invalid-temporal-literal error, the handler can never produce the typed
invalid-datetime message, let alone one naming the offending side — the
model has no `datetime` attribute at all (its datetime fields are
`first_datetime` / `second_datetime`), so for every request instance the
handler's attribute lookup raises `AttributeError` in place of the typed
error. -/
theorem c7_datetime_handler_attribute_error (pyStr : RawVal → String)
    (fields : String → RawVal) :
    invalidDatetimeHandler pyStr fields =
      .error
        "AttributeError: \x27PairSearchRequest\x27 object has no attribute \x27datetime\x27" ∧
    pairSearchRequestFields.contains "datetime" = false ∧
    pairSearchRequestFields.contains "first_datetime" = true ∧
    pairSearchRequestFields.contains "second_datetime" = true := by
  refine ⟨?_, rfl, rfl, rfl⟩
  unfold invalidDatetimeHandler getattrPSR
  rfl

/-!
### Claim C8 — `_add_item_links` / `_finalize_items` (client.py 211-277)
-/

/-- Python truthiness of an optional string (`feature.get("collection")`,
the `collection_id` / `item_id` values): `None` and `""` are falsy. -/
def truthyStr : Option String → Bool
  | none => false
  | some s => s != ""

/-- `collection_id = feature.get("collection") or collection_id`. -/
def pyOrElse (v fallback : Option String) : Option String :=
  if truthyStr v then v else fallback

/-- The guard of `_add_item_links` (client.py 236) with Python operator
precedence: `not exclude or ("links" not in exclude and
all([collection_id, item_id]))`. -/
def add_item_links_guard (exclude : List String)
    (collection_id item_id : Option String) : Bool :=
  exclude.isEmpty ||
    (!(exclude.contains "links") &&
      (truthyStr collection_id && truthyStr item_id))

/-- Modelled from the spec (and the function's own docstring): "Reconstruct
per-item links unless a `fields` selection explicitly excludes `links` or
an item lacks the identifiers needed to build them" — i.e. add links iff
`links` is not excluded AND both identifiers are available. -/
def add_item_links_guard_doc (exclude : List String)
    (collection_id item_id : Option String) : Bool :=
  !(exclude.contains "links") &&
    (truthyStr collection_id && truthyStr item_id)

/-- An item payload restricted to what `_add_item_links` touches; link
payloads are abstracted as strings. -/
structure Feature where
  collection : Option String := none
  id : Option String := none
  links : Option (List String) := none

/-- `_add_item_links` (client.py 223-241): resolve the two ids with the
`or`-fallback, then set `feature["links"]` when the guard passes
(`mkLinks` models `ItemLinks(...).get_links(extra_links=...)`). -/
def add_item_links
    (mkLinks : Option String → Option String → Option (List String) →
      List String)
    (exclude : List String) (feature : Feature)
    (collection_id item_id : Option String) : Feature :=
  let cid := pyOrElse feature.collection collection_id
  let iid := pyOrElse feature.id item_id
  if add_item_links_guard exclude cid iid then
    { feature with links := some (mkLinks cid iid feature.links) }
  else feature

/-- C8 (code evaluated at the failing input): the guard misparenthesizes
the docstring's condition — `not exclude or ("links" not in exclude and
all([...]))` instead of `(not exclude or "links" not in exclude) and
all([...])`.  With an empty exclusion set and a feature lacking both
identifiers the code still reconstructs links (invoking the link builder
with `None` ids), while the documented condition says to skip; whenever
the exclusion set is non-empty the two conditions agree. -/
theorem c8_links_guard_precedence_bug
    (mkLinks : Option String → Option String → Option (List String) →
      List String) :
    add_item_links_guard [] none none = true ∧
    add_item_links_guard_doc [] none none = false ∧
    add_item_links mkLinks [] {} none none =
      { links := some (mkLinks none none none) } ∧
    (∀ exclude cid iid, exclude ≠ [] →
      add_item_links_guard exclude cid iid =
        add_item_links_guard_doc exclude cid iid) := by
  refine ⟨rfl, rfl, rfl, ?_⟩
  intro exclude cid iid hne
  cases exclude with
  | nil => exact absurd rfl hne
  | cons e es =>
    simp [add_item_links_guard, add_item_links_guard_doc]

/-- Witness for C8 at concrete inputs: a singleton exclusion of `links`
makes both guards false, and the empty exclusion with missing ids shows
the divergence. -/
theorem c8_links_guard_precedence_bug_witness :
    add_item_links_guard ["links"] (some "c") (some "i") =
      add_item_links_guard_doc ["links"] (some "c") (some "i") ∧
    add_item_links_guard [] none none = true :=
  ⟨(c8_links_guard_precedence_bug (fun _ _ _ => [])).2.2.2 ["links"]
      (some "c") (some "i") (by simp),
    (c8_links_guard_precedence_bug (fun _ _ _ => [])).1⟩

/-!
### Claim C10 — `_sanitize_pair_search_request` (client.py 158-209)

The input mapping is `search_request.dict(by_alias=True)`: it always
carries the model's keys (in particular `filter` and `filter_lang`), with
`filter` a string or `None` (the field is `Optional[str]`).
-/

/-- `query[k]` / `query.get(k)` on the dumped mapping (missing key modelled
as `None`, which only ever happens for `fields` — the model has no such
field). -/
def dictGet (q : List (String × RawVal)) (k : String) : RawVal :=
  match q.lookup k with
  | some v => v
  | none => .rnull

/-- `query[k] = v` (update in place, append if new). -/
def dictSet : List (String × RawVal) → String → RawVal → List (String × RawVal)
  | [], k, v => [(k, v)]
  | (k0, v0) :: rest, k, v =>
    if k0 = k then (k0, v) :: rest else (k0, v0) :: dictSet rest k v

/-- `query["filter_lang"] == "cql2-text"` (Python `==` against a string:
only an equal string compares true). -/
def isTextLang : RawVal → Bool
  | .rstr s => s == "cql2-text"
  | _ => false

/-- The filter block of `_sanitize_pair_search_request` (client.py
182-188): a truthy `filter` in `cql2-text` is parsed
(`Expr(query["filter"]).to_json()`, modelled by the oracle `exprToJson`
with `none` for a raised parse error — an unhandled exception at this
point), the language marker is rewritten to `cql2-json`, and the tree is
normalized with `_fix_filter`; with any other `filter_lang` the value is a
string, on which `_fix_filter` (applied outside the inner `if` in the
source) is the identity.  A falsy `filter` is reset to `None`.  `cqlToRaw`
injects the parsed tree back into the JSON model. -/
def sanitize_filter_step (exprToJson : RawVal → Option CqlJson)
    (cqlToRaw : CqlJson → RawVal) (query : List (String × RawVal)) :
    Option (List (String × RawVal)) :=
  if truthy (dictGet query "filter") then
    if isTextLang (dictGet query "filter_lang") then
      match exprToJson (dictGet query "filter") with
      | none => none
      | some t =>
        some (dictSet (dictSet query "filter" (cqlToRaw (fix_filter t)))
          "filter_lang" (.rstr "cql2-json"))
    else some query
  else some (dictSet query "filter" .rnull)

/-- The `fields` block (client.py 190-201): dead for `PairSearchRequest`
dumps (the model has no `fields` field, so `query.get("fields")` is always
falsy), kept for fidelity: a truthy list of field names is folded into the
`{"include": ..., "exclude": ...}` shape (`+`/bare prefixes include, `-`
excludes; Python uses sets, order is irrelevant downstream). -/
def sanitize_fields_step (query : List (String × RawVal)) :
    List (String × RawVal) :=
  if truthy (dictGet query "fields") then
    match dictGet query "fields" with
    | .rlist fs =>
      let includes := fs.filterMap fun v =>
        match v with
        | .rstr s =>
          if s.startsWith "-" then none
          else if s.startsWith "+" then some (s.drop 1) else some s
        | _ => none
      let excludes := fs.filterMap fun v =>
        match v with
        | .rstr s => if s.startsWith "-" then some (s.drop 1) else none
        | _ => none
      dictSet query "fields"
        (.rdict [("include", .rlist (includes.map RawVal.rstr)),
                 ("exclude", .rlist (excludes.map RawVal.rstr))])
    | _ => query
  else query

/-- `value is None`. -/
def isNone : RawVal → Bool
  | .rnull => true
  | _ => false

/-- `value == []` (only the empty list; Python `{} != []`, `"" != []`). -/
def isEmptyList : RawVal → Bool
  | .rlist [] => true
  | _ => false

/-- The final comprehension (client.py 203-207): keep only entries whose
value `is not None and value != []`. -/
def dropNullEmpty (query : List (String × RawVal)) :
    List (String × RawVal) :=
  query.filter fun kv => !isNone kv.2 && !isEmptyList kv.2

/-- `_sanitize_pair_search_request` (client.py 158-209): filter block,
fields block, then the null/empty-list sweep.  `none` propagates an
unhandled parse exception. -/
def sanitize_pair_search_request (exprToJson : RawVal → Option CqlJson)
    (cqlToRaw : CqlJson → RawVal) (query : List (String × RawVal)) :
    Option (List (String × RawVal)) :=
  match sanitize_filter_step exprToJson cqlToRaw query with
  | none => none
  | some q1 => some (dropNullEmpty (sanitize_fields_step q1))

/-- C10: the sanitized request mapping handed to the engine contains no
key whose value is `None` and no key whose value is the empty list — every
absent or empty parameter is dropped before the engine call. -/
theorem c10_sanitized_request_no_null_no_empty
    (exprToJson : RawVal → Option CqlJson) (cqlToRaw : CqlJson → RawVal)
    (query out : List (String × RawVal))
    (h : sanitize_pair_search_request exprToJson cqlToRaw query = some out) :
    ∀ kv ∈ out, isNone kv.2 = false ∧ isEmptyList kv.2 = false := by
  intro kv hkv
  unfold sanitize_pair_search_request at h
  cases hf : sanitize_filter_step exprToJson cqlToRaw query with
  | none => rw [hf] at h; cases h
  | some q1 =>
    rw [hf] at h
    have hout : dropNullEmpty (sanitize_fields_step q1) = out :=
      Option.some.inj h
    rw [← hout] at hkv
    have hp := List.of_mem_filter hkv
    simp only [Bool.and_eq_true, Bool.not_eq_true'] at hp
    exact hp

/-- Witness for C10 at a concrete dumped request: the kept entry `limit`
is neither `None` nor `[]`; the `None` filter and empty ids list are
dropped. -/
theorem c10_sanitized_request_no_null_no_empty_witness :
    isNone (RawVal.rnum 10) = false ∧ isEmptyList (RawVal.rnum 10) = false :=
  c10_sanitized_request_no_null_no_empty (fun _ => none) (fun _ => .rnull)
    [("limit", .rnum 10), ("filter", .rnull), ("first-ids", .rlist [])]
    [("limit", .rnum 10)] rfl ("limit", .rnum 10) (by simp)

/-!
### Claim C9 — GET / POST pipeline equivalence (client.py 39-97, 279-332)

Both handlers validate the incoming parameters into the same
`PairSearchRequest` (by definition, requests "carrying equivalent
parameter sets" validate to the same model), then call the shared
`_pair_search_base`, which queries the engine with the sanitized request
and post-processes features and links; the handlers differ only in the
link assembly, which `_get_search_links` makes method-dependent.
-/

/-- `{**a, **b}`: keys of `a` (in order, values overridden by `b`),
followed by the keys of `b` not in `a` (in order). -/
def mergeDict (a b : List (String × RawVal)) : List (String × RawVal) :=
  (a.map fun kv =>
    match b.lookup kv.1 with
    | some v => (kv.1, v)
    | none => kv) ++
  b.filter fun kv => (a.lookup kv.1).isNone

/-- `extra_params or {}` then `**`-splat: a dict contributes its entries,
anything falsy contributes nothing. -/
def rawToDict : RawVal → List (String × RawVal)
  | .rdict kvs => kvs
  | _ => []

/-- The pagination-parameter extraction of `_pair_search_base` (client.py
137-139): `{link.get("rel"): link.get("parameters") for link in
items.get("links") or []}`.  (A link without a string `rel` would be keyed
by `None` and can never match the later `"next"`/`"prev"` lookups, so it
is skipped.) -/
def extract_link_parameters (links : List RawVal) :
    List (String × RawVal) :=
  links.filterMap fun l =>
    match l with
    | .rdict kvs =>
      match kvs.lookup "rel" with
      | some (.rstr r) =>
        some (r, match kvs.lookup "parameters" with
          | some p => p
          | none => .rnull)
      | _ => none
    | _ => none

/-- `_get_link` for a GET request (client.py 292-300): method-tagged dict
whose `href` replays the query parameters merged with the pagination
parameters (`replaceQP` models `request.url.replace_query_params`). -/
def get_method_link (replaceQP : List (String × RawVal) → String)
    (queryParams : List (String × RawVal)) (rel : String)
    (extraParams : RawVal) : RawVal :=
  .rdict [("rel", .rstr rel), ("method", .rstr "GET"),
          ("href", .rstr (replaceQP (mergeDict queryParams
            (rawToDict extraParams)))),
          ("type", .rstr "application/geo+json")]

/-- `_get_link` for a POST request (client.py 307-314): method-tagged dict
whose `body` replays the JSON body merged with the pagination
parameters. -/
def post_method_link (selfUrl : String) (body : List (String × RawVal))
    (rel : String) (extraParams : RawVal) : RawVal :=
  .rdict [("rel", .rstr rel), ("method", .rstr "POST"),
          ("href", .rstr selfUrl),
          ("body", .rdict (mergeDict body (rawToDict extraParams))),
          ("type", .rstr "application/geo+json")]

/-- `_get_search_links` (client.py 279-332): `root` and `self`, then
method-aware `next`/`prev` links replaying the request parameters with the
pagination parameters. -/
def get_search_links (method : String)
    (replaceQP : List (String × RawVal) → String) (baseUrl selfUrl : String)
    (params : List (String × RawVal))
    (linkParameters : List (String × RawVal)) : List RawVal :=
  let mk := fun (rel : String) (extra : RawVal) =>
    if method = "GET" then get_method_link replaceQP params rel extra
    else post_method_link selfUrl params rel extra
  [.rdict [("rel", .rstr "root"), ("href", .rstr baseUrl),
           ("type", .rstr "application/json")],
   .rdict [("rel", .rstr "self"), ("href", .rstr selfUrl),
           ("type", .rstr "application/geo+json")]] ++
  (match linkParameters.lookup "next" with
   | some ps => [mk "next" ps]
   | none => []) ++
  (match linkParameters.lookup "prev" with
   | some ps => [mk "prev" ps]
   | none => [])

/-- An item collection: features, links, and the remaining payload
(`numberPairsReturned` etc.), which link post-processing never touches. -/
structure ItemColl where
  features : List RawVal
  links : List RawVal
  extra : RawVal

/-- `_pair_search_base` (client.py 99-156): query the engine with the
sanitized request (a fixed `engine` function models the catalog state),
extract the pagination parameters from the returned links, finalize the
features (`finalize` models `_finalize_items`, which does not depend on
the HTTP method), and attach the method-aware search links. -/
def pair_search_base (engine : List (String × RawVal) → ItemColl)
    (finalize : List RawVal → List RawVal) (method : String)
    (replaceQP : List (String × RawVal) → String) (baseUrl selfUrl : String)
    (params sanitized : List (String × RawVal)) : ItemColl :=
  let items := engine sanitized
  let linkParameters := extract_link_parameters items.links
  { features := finalize items.features,
    links := get_search_links method replaceQP baseUrl selfUrl params
      linkParameters,
    extra := items.extra }

/-- `get_pair_search` (client.py 39-62): `_pair_search_base` with
`request.method = "GET"`, then the top-level links pass
(`topLinks` models `PairSearchLinks(request).get_links(extra_links=...)`). -/
def get_pair_search (engine : List (String × RawVal) → ItemColl)
    (finalize : List RawVal → List RawVal)
    (topLinks : List RawVal → List RawVal)
    (replaceQP : List (String × RawVal) → String) (baseUrl selfUrl : String)
    (params sanitized : List (String × RawVal)) : ItemColl :=
  let c := pair_search_base engine finalize "GET" replaceQP baseUrl selfUrl
    params sanitized
  { c with links := topLinks c.links }

/-- `post_pair_search` (client.py 64-97): `_pair_search_base` with
`request.method = "POST"`, then the same top-level links pass.  (The
`fields` early-return branch is dead: `getattr(search_request, "fields",
None)` is always `None`, the model has no such field.) -/
def post_pair_search (engine : List (String × RawVal) → ItemColl)
    (finalize : List RawVal → List RawVal)
    (topLinks : List RawVal → List RawVal)
    (replaceQP : List (String × RawVal) → String) (baseUrl selfUrl : String)
    (params sanitized : List (String × RawVal)) : ItemColl :=
  let c := pair_search_base engine finalize "POST" replaceQP baseUrl selfUrl
    params sanitized
  { c with links := topLinks c.links }

/-- C9 counterexample: a fixed catalog state whose result carries a `next`
pagination link, and one request issued both ways (identical validated
parameters, identical URLs, identity top-links pass).  The two response
bodies differ: the GET pipeline emits a next link with `"method": "GET"`
and an `href` replaying the query parameters, the POST pipeline one with
`"method": "POST"` and a `body` — so GET and POST responses are not
identical. -/
theorem c9_get_post_not_identical_counterexample :
    get_pair_search
      (fun _ => { features := [], extra := .rnull,
                  links := [.rdict [("rel", .rstr "next"),
                    ("parameters", .rdict [("offset", .rstr "10")])]] })
      (fun fs => fs) (fun ls => ls) (fun _ => "url") "base" "self"
      [("limit", .rstr "5")] [] ≠
    post_pair_search
      (fun _ => { features := [], extra := .rnull,
                  links := [.rdict [("rel", .rstr "next"),
                    ("parameters", .rdict [("offset", .rstr "10")])]] })
      (fun fs => fs) (fun ls => ls) (fun _ => "url") "base" "self"
      [("limit", .rstr "5")] [] := by
  intro h
  have h2 := congrArg ItemColl.links h
  simp [get_pair_search, post_pair_search, pair_search_base,
    get_search_links, get_method_link, post_method_link,
    extract_link_parameters, mergeDict, rawToDict] at h2

/-- C9 (amended): for requests carrying equivalent parameter sets (hence
the same validated request, the same sanitized engine query and the same
raw parameter mapping) against a fixed catalog state, the GET and POST
pipelines produce identical features and identical remaining payload
(counters); only the links section is method-aware, and it differs exactly
when a `next` or `prev` pagination link is present (GET replays the query
parameters in the link href, POST replays the JSON body, each tagged with
its method). -/
theorem c9_amended_method_invariance_modulo_links
    (engine : List (String × RawVal) → ItemColl)
    (finalize : List RawVal → List RawVal)
    (topLinks : List RawVal → List RawVal)
    (replaceQP : List (String × RawVal) → String) (baseUrl selfUrl : String)
    (params sanitized : List (String × RawVal)) :
    (get_pair_search engine finalize topLinks replaceQP baseUrl selfUrl
        params sanitized).features =
      (post_pair_search engine finalize topLinks replaceQP baseUrl selfUrl
        params sanitized).features ∧
    (get_pair_search engine finalize topLinks replaceQP baseUrl selfUrl
        params sanitized).extra =
      (post_pair_search engine finalize topLinks replaceQP baseUrl selfUrl
        params sanitized).extra ∧
    ((extract_link_parameters (engine sanitized).links).lookup "next" =
        none →
      (extract_link_parameters (engine sanitized).links).lookup "prev" =
        none →
      get_pair_search engine finalize topLinks replaceQP baseUrl selfUrl
          params sanitized =
        post_pair_search engine finalize topLinks replaceQP baseUrl selfUrl
          params sanitized) := by
  refine ⟨rfl, rfl, fun hn hp => ?_⟩
  unfold get_pair_search post_pair_search pair_search_base get_search_links
  simp [hn, hp]

/-- Witness for C9 (amended) at a concrete catalog state without
pagination links: the two pipelines agree on the whole body. -/
theorem c9_amended_method_invariance_modulo_links_witness :
    get_pair_search
      (fun _ => { features := [.rstr "f1"], links := [], extra := .rnull })
      (fun fs => fs) (fun ls => ls) (fun _ => "url") "base" "self" [] [] =
    post_pair_search
      (fun _ => { features := [.rstr "f1"], links := [], extra := .rnull })
      (fun fs => fs) (fun ls => ls) (fun _ => "url") "base" "self" [] [] :=
  (c9_amended_method_invariance_modulo_links
    (fun _ => { features := [.rstr "f1"], links := [], extra := .rnull })
    (fun fs => fs) (fun ls => ls) (fun _ => "url") "base" "self" [] []).2.2
    rfl rfl

end PairSearch
